import Mathlib

/-!
Verification of the prompt-as-code harness (harness/runner.ts, harness/llm-client.ts).

Shallow embedding: JavaScript strings are lists of characters (`JStr`); the
runner's methods become pure Lean functions translated from the TypeScript
source.  Wall-clock fields (`execution_time_ms`) and console logging are not
modelled.  JavaScript `toLowerCase` is modelled by `Char.toLower` (faithful on
ASCII).  `processTemplate` builds `new RegExp("\x7b\x7bkey\x7d\x7d", "g")` from the raw
key and calls `String.prototype.replace`; the model implements literal global
replacement plus the `$`-expansion of the replacement string, which is faithful
whenever the key contains no regex metacharacters and the value contains none
of the position-dependent replacement escapes (backtick or quote after `$`).
-/

namespace PromptAsCode

/-- A JavaScript string, modelled as a list of characters. -/
abbrev JStr := List Char

/-- Convenience conversion from Lean string literals to `JStr`. -/
def js (s : String) : JStr := s.toList

/-- Model of JavaScript `toLowerCase` (ASCII). -/
def jsToLower (s : JStr) : JStr := s.map Char.toLower

/-- Model of JavaScript `String.prototype.includes`: `jsIncludes needle hay`
is `true` iff `needle` occurs contiguously inside `hay`. -/
def jsIncludes (needle : JStr) : JStr → Bool
  | [] => needle.isEmpty
  | c :: t => needle.isPrefixOf (c :: t) || jsIncludes needle t

/-- The literal token `\x7b\x7bkey\x7d\x7d` built by `processTemplate` from a variable key. -/
def placeholder (key : JStr) : JStr := '{' :: '{' :: (key ++ ['}', '}'])

/-- JavaScript `GetSubstitution` for a replacement string when the pattern has
no capture groups: `$$` yields `$`, `$&` yields the matched text, any other
character is copied.  (The position-dependent escapes `$` followed by a
backtick or a quote are outside the model.) -/
def expandDollar (matched : JStr) : JStr → JStr
  | [] => []
  | c :: rest =>
    if c = '$' then
      match rest with
      | [] => [c]
      | d :: rest2 =>
        if d = '$' then '$' :: expandDollar matched rest2
        else if d = '&' then matched ++ expandDollar matched rest2
        else c :: expandDollar matched (d :: rest2)
    else c :: expandDollar matched rest

/-- Fuel-indexed worker for `replaceAll`; the fuel only serves to make the
recursion structural, `replaceAll` always supplies enough. -/
def replaceAllAux (p : Char) (ps repl : JStr) : Nat → JStr → JStr
  | 0, s => s
  | _ + 1, [] => []
  | fuel + 1, c :: rest =>
    if (p :: ps).isPrefixOf (c :: rest) then
      repl ++ replaceAllAux p ps repl fuel (rest.drop ps.length)
    else
      c :: replaceAllAux p ps repl fuel rest

/-- Model of JavaScript `s.replace(new RegExp(pat, "g"), repl)` for a literal
(metacharacter-free) pattern `p :: ps` and an already-expanded replacement:
repeatedly replaces the leftmost occurrence and continues after it. -/
def replaceAll (p : Char) (ps repl s : JStr) : JStr :=
  replaceAllAux p ps repl s.length s

/-- One iteration of the `processTemplate` loop:
`processed.replace(new RegExp(placeholder, "g"), String(value))`.
The match is always the placeholder itself, so the replacement-string
expansion of the value is constant. -/
def substituteVar (s key value : JStr) : JStr :=
  replaceAll '{' ('{' :: (key ++ ['}', '}'])) (expandDollar (placeholder key) value) s

/-- `PromptRunner.processTemplate`: substitute every variable in turn
(`Object.entries` order = the list order).  Values are taken already
stringified (`String(value)`).  The unresolved-placeholder scan is only a
console diagnostic in the source; it is modelled separately by
`allContents` / `hasUnresolved`. -/
def processTemplate (template : JStr) (vars : List (JStr × JStr)) : JStr :=
  vars.foldl (fun processed kv => substituteVar processed kv.1 kv.2) template

/-- `AssertionResult` from harness/types.ts. -/
structure AssertionResult where
  assertion : JStr
  passed : Bool
  found_in_response : Bool
  deriving DecidableEq, Repr

/-- The two optional assertion lists of a test case
(`TestCase['assertions']`); a missing list is `none`. -/
structure Assertions where
  should_contain : Option (List JStr)
  should_not_contain : Option (List JStr)
  deriving DecidableEq, Repr

/-- Result record of `runAssertions` (both outcome lists). -/
structure AssertionOutcomes where
  should_contain : List AssertionResult
  should_not_contain : List AssertionResult
  deriving DecidableEq, Repr

/-- One `should_contain` check:
`response.toLowerCase().includes(assertion.toLowerCase())`. -/
def checkContain (response a : JStr) : AssertionResult :=
  let found := jsIncludes (jsToLower a) (jsToLower response)
  { assertion := a, passed := found, found_in_response := found }

/-- One `should_not_contain` check: passes iff NOT found. -/
def checkNotContain (response a : JStr) : AssertionResult :=
  let found := jsIncludes (jsToLower a) (jsToLower response)
  { assertion := a, passed := !found, found_in_response := found }

/-- `PromptRunner.runAssertions`: each present list is traversed in order and
an outcome is pushed per assertion; a missing list contributes no outcomes. -/
def runAssertions (response : JStr) (a : Assertions) : AssertionOutcomes :=
  { should_contain := (a.should_contain.getD []).map (checkContain response),
    should_not_contain := (a.should_not_contain.getD []).map (checkNotContain response) }

/-- `PromptRunner.allAssertionsPassed`: `.every(a => a.passed)` on both lists. -/
def allAssertionsPassed (r : AssertionOutcomes) : Bool :=
  r.should_contain.all (fun a => a.passed) && r.should_not_contain.all (fun a => a.passed)

/-! ## Prompt configuration and model-parameter resolution
(`PromptConfig` from harness/types.ts, resolution from harness/llm-client.ts) -/

/-- `PromptConfig`: the fields the core reads (`version`/`description` are
never consulted by the runner and are omitted).  Temperature is a JavaScript
number, modelled as `ℚ`; `max_tokens` as `ℤ`. -/
structure PromptConfig where
  name : JStr
  template : JStr
  model : Option JStr
  temperature : Option ℚ
  max_tokens : Option ℤ
  deriving DecidableEq, Repr

/-- JavaScript `a || b` on an optional string: `undefined` and `""` are falsy. -/
def jsOrStr (x : Option JStr) (d : JStr) : JStr :=
  match x with
  | none => d
  | some s => if s.isEmpty then d else s

/-- JavaScript `a || b` on an optional number: `undefined` and `0` are falsy. -/
def jsOrQ (x : Option ℚ) (d : ℚ) : ℚ :=
  match x with
  | none => d
  | some v => if v = 0 then d else v

/-- JavaScript `a || b` on an optional integer: `undefined` and `0` are falsy. -/
def jsOrZ (x : Option ℤ) (d : ℤ) : ℤ :=
  match x with
  | none => d
  | some v => if v = 0 then d else v

/-- The hard-coded default model name. -/
def defaultModel : JStr := js "gpt-3.5-turbo"

/-- `modelOverride || config.model || 'gpt-3.5-turbo'` — computed identically
in `LLMClient.executePrompt` and in `executeTestPair`'s `model_used`. -/
def resolvedModel (modelOverride : Option JStr) (config : PromptConfig) : JStr :=
  jsOrStr modelOverride (jsOrStr config.model defaultModel)

/-- The request `LLMClient.executePrompt` sends to the API. -/
structure LLMRequest where
  model : JStr
  content : JStr
  temperature : ℚ
  max_tokens : ℤ
  deriving DecidableEq, Repr

/-- `LLMClient.executePrompt`'s request assembly:
model per the `||` chain, `config.temperature || 0.1`, `config.max_tokens || 500`. -/
def buildRequest (promptText : JStr) (config : PromptConfig)
    (modelOverride : Option JStr) : LLMRequest :=
  { model := resolvedModel modelOverride config,
    content := promptText,
    temperature := jsOrQ config.temperature (1 / 10),
    max_tokens := jsOrZ config.max_tokens 500 }

/-! ## Test cases, sample data, results, execution engine -/

/-- `TestCase`: name, input map (values already stringified by
`String(value)`), assertions. -/
structure TestCase where
  name : JStr
  input : List (JStr × JStr)
  assertions : Assertions
  deriving DecidableEq, Repr

/-- `SampleData`: optional `prompt_name`, ordered test cases. -/
structure SampleData where
  prompt_name : Option JStr
  test_cases : List TestCase
  deriving DecidableEq, Repr

/-- `TestResult` (harness/types.ts); `execution_time_ms` is wall-clock and is
not modelled. -/
structure TestResult where
  prompt_name : JStr
  test_case_name : JStr
  model_used : JStr
  passed : Bool
  response : JStr
  assertions_checked : AssertionOutcomes
  error : Option JStr
  deriving DecidableEq, Repr

/-- The model-invocation capability (`LLMClient.executePrompt`): returns the
response text or signals an error with a message.  The `try/catch` around the
OpenAI call is summarised by the `Except` result. -/
abbrev Invoke := LLMRequest → Except JStr JStr

/-- One iteration of the `executeTestPair` loop: render the template, invoke
the model, and build the `TestResult` — the success branch evaluates the
assertions, the catch branch records `passed := false`, an empty response,
empty outcome lists and the error message. -/
def executeCase (invoke : Invoke) (modelOverride : Option JStr)
    (prompt : PromptConfig) (tc : TestCase) : TestResult :=
  let processedPrompt := processTemplate prompt.template tc.input
  match invoke (buildRequest processedPrompt prompt modelOverride) with
  | .ok response =>
    let assertionResults := runAssertions response tc.assertions
    { prompt_name := prompt.name,
      test_case_name := tc.name,
      model_used := resolvedModel modelOverride prompt,
      passed := allAssertionsPassed assertionResults,
      response := response,
      assertions_checked := assertionResults,
      error := none }
  | .error msg =>
    { prompt_name := prompt.name,
      test_case_name := tc.name,
      model_used := resolvedModel modelOverride prompt,
      passed := false,
      response := [],
      assertions_checked := { should_contain := [], should_not_contain := [] },
      error := some msg }

/-- `PromptRunner.executeTestPair`: the per-case loop pushes one result per
test case, in collection order; the catch is inside the loop, so a failing
case never stops the iteration. -/
def executeTestPair (invoke : Invoke) (modelOverride : Option JStr)
    (pair : PromptConfig × SampleData) : List TestResult :=
  pair.2.test_cases.map (executeCase invoke modelOverride pair.1)

/-! ## Matching (`matchPromptsWithSamples`) and the run loop -/

/-- The filter guard `this.config.filter && prompt.name !== this.config.filter`:
skip iff the filter is set, truthy (non-empty) and differs from the name. -/
def filterSkips (filter : Option JStr) (name : JStr) : Bool :=
  match filter with
  | none => false
  | some f => !f.isEmpty && name != f

/-- `Map.get` on the samples map, modelled as first-match lookup in the
association list. -/
def mapGet (m : List (JStr × SampleData)) (k : JStr) : Option SampleData :=
  (m.find? (fun kv => kv.1 == k)).map (fun kv => kv.2)

/-- `PromptRunner.matchPromptsWithSamples`: iterate prompts in load order,
skip filtered-out prompts, skip (with only a warning) prompts without a
same-named sample collection, and push one pair otherwise. -/
def matchPromptsWithSamples (filter : Option JStr) (prompts : List PromptConfig)
    (samples : List (JStr × SampleData)) : List (PromptConfig × SampleData) :=
  prompts.filterMap (fun prompt =>
    if filterSkips filter prompt.name then none
    else (mapGet samples prompt.name).map (fun sd => (prompt, sd)))

/-- The execution section of `PromptRunner.run`: sequentially execute every
matched pair and append its results.  (The early return on zero pairs yields
the same empty list.) -/
def run (invoke : Invoke) (modelOverride filter : Option JStr)
    (prompts : List PromptConfig) (samples : List (JStr × SampleData)) :
    List TestResult :=
  (matchPromptsWithSamples filter prompts samples).flatMap
    (executeTestPair invoke modelOverride)

/-! ## Loading (`loadPrompts`, `loadSamples`) and the full run -/

/-- A file of the prompts directory: its name and the outcome of
`yaml.load` (`none` = the loader threw). -/
structure PromptFile where
  fname : JStr
  parsed : Option PromptConfig
  deriving DecidableEq, Repr

/-- A file of the samples directory: its name and the outcome of
`JSON.parse` (`none` = the parser threw); the array format is taken as
already wrapped into a `SampleData` with no `prompt_name`. -/
structure SampleFile where
  fname : JStr
  parsed : Option SampleData
  deriving DecidableEq, Repr

/-- `file.endsWith('.yaml') || file.endsWith('.yml')`. -/
def hasYamlExt (f : JStr) : Bool :=
  (js ".yaml").isSuffixOf f || (js ".yml").isSuffixOf f

/-- `file.endsWith('.json')`. -/
def hasJsonExt (f : JStr) : Bool := (js ".json").isSuffixOf f

/-- `PromptRunner.loadPrompts`: fatal when the directory is missing or when no
`.yaml`/`.yml` file exists; a file that fails to parse, or whose parse lacks a
truthy `name` or `template`, is skipped with a warning. -/
def loadPrompts (dirExists : Bool) (files : List PromptFile) :
    Except JStr (List PromptConfig) :=
  if !dirExists then .error (js "Prompts directory not found")
  else
    let yamlFiles := files.filter (fun f => hasYamlExt f.fname)
    if yamlFiles.isEmpty then .error (js "No YAML files found")
    else .ok (yamlFiles.filterMap (fun f =>
      match f.parsed with
      | none => none
      | some p => if p.name.isEmpty || p.template.isEmpty then none else some p))

/-- Drop a trailing `.json` (the `path.basename(file, '.json')` step). -/
def stripJsonExt (f : JStr) : JStr :=
  if hasJsonExt f then f.take (f.length - 5) else f

/-- JavaScript `String.prototype.replace` with a plain-string pattern removes
only the first occurrence; `firstRemoved pat s` models `s.replace(pat, '')`. -/
def firstRemoved (pat : JStr) : JStr → JStr
  | [] => []
  | c :: rest =>
    if pat.isPrefixOf (c :: rest) then rest.drop (pat.length - 1)
    else c :: firstRemoved pat rest

/-- `samples.prompt_name || path.basename(file, '.json').replace('_samples', '')`. -/
def derivedName (fname : JStr) (sd : SampleData) : JStr :=
  jsOrStr sd.prompt_name (firstRemoved (js "_samples") (stripJsonExt fname))

/-- `Map.set`: overwrite the binding for `k`, else append it (iteration order
is irrelevant to the claims; only lookup is). -/
def mapSet (m : List (JStr × SampleData)) (k : JStr) (v : SampleData) :
    List (JStr × SampleData) :=
  (k, v) :: m.filter (fun kv => kv.1 != k)

/-- `PromptRunner.loadSamples`: fatal only when the directory is missing;
each parseable `.json` file is inserted under its derived name. -/
def loadSamples (dirExists : Bool) (files : List SampleFile) :
    Except JStr (List (JStr × SampleData)) :=
  if !dirExists then .error (js "Samples directory not found")
  else .ok ((files.filter (fun f => hasJsonExt f.fname)).foldl
    (fun m f =>
      match f.parsed with
      | none => m
      | some sd => mapSet m (derivedName f.fname sd) sd) [])

/-- The runner's configuration together with the state of the two source
directories (what the file system hands to the loaders). -/
structure RunnerConfig where
  promptDirExists : Bool
  promptFiles : List PromptFile
  samplesDirExists : Bool
  sampleFiles : List SampleFile
  modelOverride : Option JStr
  filter : Option JStr
  deriving Repr

/-- `PromptRunner.run` end to end: load prompts, load samples, match and
execute.  A loader error propagates out of `run` (the catch logs and
rethrows), so a fatal error yields no results at all. -/
def runFull (invoke : Invoke) (cfg : RunnerConfig) :
    Except JStr (List TestResult) :=
  match loadPrompts cfg.promptDirExists cfg.promptFiles with
  | .error e => .error e
  | .ok prompts =>
    match loadSamples cfg.samplesDirExists cfg.sampleFiles with
    | .error e => .error e
    | .ok samples => .ok (run invoke cfg.modelOverride cfg.filter prompts samples)

/-! ## Basic lemmas about the string model -/

theorem jsIncludes_iff (needle hay : JStr) :
    jsIncludes needle hay = true ↔ needle <:+: hay := by
  induction hay with
  | nil =>
    simp only [jsIncludes, List.isEmpty_iff]
    constructor
    · intro h; subst h; exact List.nil_infix
    · intro h
      rcases h with ⟨a, b, hab⟩
      simp only [List.append_eq_nil] at hab
      exact hab.1.2
  | cons c t ih =>
    simp [jsIncludes, Bool.or_eq_true, ih, List.isPrefixOf_iff_prefix,
      List.infix_cons_iff]

theorem jsIncludes_eq_decide (n h : JStr) : jsIncludes n h = decide (n <:+: h) := by
  by_cases hx : n <:+: h
  · simp [hx, (jsIncludes_iff n h).mpr hx]
  · have hne : jsIncludes n h ≠ true := fun hh => hx ((jsIncludes_iff n h).mp hh)
    simp [hx, Bool.not_eq_true] at hne ⊢
    exact hne

theorem jsIncludes_nil_left (h : JStr) : jsIncludes [] h = true := by
  cases h <;> simp [jsIncludes, List.isPrefixOf]

/-! ## Concrete fixtures used by witnesses and counterexamples -/

/-- A small concrete prompt definition. -/
def p0 : PromptConfig :=
  { name := js "greeting", template := js "Hello \x7b\x7bname\x7d\x7d",
    model := none, temperature := none, max_tokens := none }

/-- A concrete test case with both assertion lists present. -/
def tc1 : TestCase :=
  { name := js "case1", input := [(js "name", js "World")],
    assertions := { should_contain := some [js "hello"],
                    should_not_contain := some [js "error"] } }

/-- A concrete test case with both assertion lists absent. -/
def tc2 : TestCase :=
  { name := js "case2", input := [(js "name", js "Bob")],
    assertions := { should_contain := none, should_not_contain := none } }

/-- A concrete sample collection with two cases. -/
def sd0 : SampleData := { prompt_name := none, test_cases := [tc1, tc2] }

/-- An invocation capability that always fails. -/
def failingInvoke : Invoke := fun _ => .error (js "rate limit exceeded")

/-- An invocation capability that always answers. -/
def okInvoke : Invoke := fun _ => .ok (js "Hello World")

/-! ## Claim theorems -/

/-- Claim C1: when the invocation capability fails on a test case, the engine
records for that case a `TestResult` with `passed = false`, empty response,
empty outcome lists and the failure's message, and the run is the per-case map
over all cases — one case's failure never aborts the loop and never affects
any other case's result. -/
theorem C1_invoke_failure_isolated (invoke : Invoke) (ov : Option JStr)
    (prompt : PromptConfig) (sd : SampleData) (i : Nat) (msg : JStr)
    (hi : i < sd.test_cases.length)
    (hfail : invoke (buildRequest
        (processTemplate prompt.template (sd.test_cases.get ⟨i, hi⟩).input)
        prompt ov) = Except.error msg) :
    executeTestPair invoke ov (prompt, sd) =
      sd.test_cases.map (executeCase invoke ov prompt) ∧
    executeCase invoke ov prompt (sd.test_cases.get ⟨i, hi⟩) =
      { prompt_name := prompt.name,
        test_case_name := (sd.test_cases.get ⟨i, hi⟩).name,
        model_used := resolvedModel ov prompt,
        passed := false,
        response := [],
        assertions_checked := { should_contain := [], should_not_contain := [] },
        error := some msg } := by
  refine ⟨rfl, ?_⟩
  simp only [executeCase]
  rw [hfail]

/-- Witness for C1 at a concrete failing run. -/
theorem C1_invoke_failure_isolated_witness :
    executeTestPair failingInvoke none (p0, sd0) =
      sd0.test_cases.map (executeCase failingInvoke none p0) ∧
    executeCase failingInvoke none p0 (sd0.test_cases.get ⟨0, by decide⟩) =
      { prompt_name := p0.name,
        test_case_name := (sd0.test_cases.get ⟨0, by decide⟩).name,
        model_used := resolvedModel none p0,
        passed := false,
        response := [],
        assertions_checked := { should_contain := [], should_not_contain := [] },
        error := some (js "rate limit exceeded") } :=
  C1_invoke_failure_isolated failingInvoke none p0 sd0 0 (js "rate limit exceeded")
    (by decide) rfl

/-- Claim C2: assertion evaluation lower-cases response and assertion before a
substring check; a `should_contain` outcome passes iff the lowered assertion
is an infix of the lowered response, a `should_not_contain` outcome passes iff
it is not, and each outcome list mirrors its source list (order and
duplicates). -/
theorem C2_assertions_lowercased_ordered (R : JStr) (scl sncl : List JStr) :
    (runAssertions R ⟨some scl, some sncl⟩).should_contain =
      scl.map (fun a =>
        ⟨a, decide (jsToLower a <:+: jsToLower R),
          decide (jsToLower a <:+: jsToLower R)⟩) ∧
    (runAssertions R ⟨some scl, some sncl⟩).should_not_contain =
      sncl.map (fun a =>
        ⟨a, !(decide (jsToLower a <:+: jsToLower R)),
          decide (jsToLower a <:+: jsToLower R)⟩) := by
  constructor <;>
    simp [runAssertions, checkContain, checkNotContain, jsIncludes_eq_decide]

/-- Claim C7: the aggregate `passed` flag is the conjunction of both outcome
lists, a missing assertion list behaves exactly like an empty one, and with
both lists empty or absent the aggregate is `true` for every response. -/
theorem C7_aggregate_conjunction (R : JStr) (a : Assertions) :
    allAssertionsPassed (runAssertions R a) =
      ((runAssertions R a).should_contain.all (fun o => o.passed) &&
        (runAssertions R a).should_not_contain.all (fun o => o.passed)) ∧
    runAssertions R ⟨none, none⟩ = runAssertions R ⟨some [], some []⟩ ∧
    allAssertionsPassed (runAssertions R ⟨none, none⟩) = true ∧
    (allAssertionsPassed (runAssertions R a) = true ↔
      (∀ o ∈ (runAssertions R a).should_contain, o.passed = true) ∧
      (∀ o ∈ (runAssertions R a).should_not_contain, o.passed = true)) := by
  refine ⟨rfl, rfl, rfl, ?_⟩
  simp [allAssertionsPassed, Bool.and_eq_true, List.all_eq_true]

/-- Claim C10: an empty-string assertion is found in every response: in
`should_contain` its outcome always has `found_in_response = true` and
`passed = true`, in `should_not_contain` it always has `passed = false`. -/
theorem C10_empty_assertion (R : JStr) (pre1 post1 pre2 post2 : List JStr) :
    (runAssertions R ⟨some (pre1 ++ [[]] ++ post1),
      some (pre2 ++ [[]] ++ post2)⟩).should_contain =
      pre1.map (checkContain R) ++ [⟨[], true, true⟩] ++ post1.map (checkContain R) ∧
    (runAssertions R ⟨some (pre1 ++ [[]] ++ post1),
      some (pre2 ++ [[]] ++ post2)⟩).should_not_contain =
      pre2.map (checkNotContain R) ++ [⟨[], false, true⟩] ++
        post2.map (checkNotContain R) := by
  constructor <;>
    simp [runAssertions, checkContain, checkNotContain, jsToLower,
      jsIncludes_nil_left]

/-- Counterexample to claim C5 as stated: a filter set to the empty string is
falsy in the source's guard, so a prompt whose name differs from this set
filter still contributes a pair. -/
theorem C5_counterexample :
    p0.name ≠ js "" ∧
    matchPromptsWithSamples (some (js "")) [p0] [(js "greeting", sd0)] =
      [(p0, sd0)] := by
  decide

/-- Claim C5 (amended): prompts are matched in load order; a prompt whose
name differs from a set, non-empty filter (exact, case-sensitive comparison)
contributes no pair — a filter set to the empty string is treated as unset —
a prompt with no same-named sample collection contributes no pair, every
prompt passing both checks yields exactly one pair, and a pair whose
collection has zero test cases yields zero results. -/
theorem C5_matching_amended (filter : Option JStr) (p : PromptConfig)
    (rest : List PromptConfig) (m : List (JStr × SampleData))
    (invoke : Invoke) (ov : Option JStr) (pn : Option JStr) :
    matchPromptsWithSamples filter (p :: rest) m =
      (if filterSkips filter p.name then []
       else ((mapGet m p.name).map (fun sd => (p, sd))).toList) ++
        matchPromptsWithSamples filter rest m ∧
    filterSkips filter p.name =
      (match filter with
       | none => false
       | some f => !f.isEmpty && p.name != f) ∧
    executeTestPair invoke ov (p, { prompt_name := pn, test_cases := [] }) = [] := by
  refine ⟨?_, rfl, rfl⟩
  unfold matchPromptsWithSamples
  rw [List.filterMap_cons]
  by_cases hf : filterSkips filter p.name = true
  · simp [hf]
  · rw [Bool.not_eq_true] at hf
    cases hg : mapGet m p.name <;> simp [hf, hg]

/-- Claim C6: the run's result sequence is exactly the concatenation, in pair
order, of each pair's per-case results in case order. -/
theorem C6_result_ordering (invoke : Invoke) (ov filter : Option JStr)
    (prompts : List PromptConfig) (samples : List (JStr × SampleData))
    (pair : PromptConfig × SampleData) :
    run invoke ov filter prompts samples =
      ((matchPromptsWithSamples filter prompts samples).map
        (executeTestPair invoke ov)).flatten ∧
    executeTestPair invoke ov pair =
      pair.2.test_cases.map (executeCase invoke ov pair.1) ∧
    (run invoke ov filter prompts samples).length =
      ((matchPromptsWithSamples filter prompts samples).map
        (fun pr => pr.2.test_cases.length)).sum := by
  refine ⟨by simp [run, List.flatMap_def], rfl, ?_⟩
  simp [run, List.length_flatMap, executeTestPair, Function.comp_def]

/-- A configuration whose prompts directory is missing. -/
def cfgNoPromptDir : RunnerConfig :=
  { promptDirExists := false, promptFiles := [], samplesDirExists := true,
    sampleFiles := [], modelOverride := none, filter := none }

/-- A configuration whose prompts directory holds no YAML-named file. -/
def cfgNoYaml : RunnerConfig :=
  { promptDirExists := true, promptFiles := [⟨js "readme.txt", none⟩],
    samplesDirExists := true, sampleFiles := [], modelOverride := none,
    filter := none }

/-- A configuration whose samples directory is missing. -/
def cfgNoSamplesDir : RunnerConfig :=
  { promptDirExists := true, promptFiles := [⟨js "a.yaml", some p0⟩],
    samplesDirExists := false, sampleFiles := [], modelOverride := none,
    filter := none }

/-- A configuration whose only prompt file is YAML-named but unparseable. -/
def cfgAllMalformed : RunnerConfig :=
  { promptDirExists := true, promptFiles := [⟨js "bad.yaml", none⟩],
    samplesDirExists := true, sampleFiles := [], modelOverride := none,
    filter := none }

/-- Counterexample to claim C8 as stated: when prompt files exist but every
one of them is malformed, the run does not abort — it completes successfully
with an empty result list. -/
theorem C8_counterexample :
    loadPrompts true [⟨js "bad.yaml", none⟩] = Except.ok [] ∧
    runFull okInvoke cfgAllMalformed = Except.ok [] := by
  exact ⟨rfl, rfl⟩

/-- Claim C8 (amended): a missing prompt directory, a missing samples
directory, or the absence of any YAML-named prompt file aborts the run with a
fatal error before any test executes and with no results reported; but prompt
files that are present and all malformed do not abort the run. -/
theorem C8_fatal_amended (invoke : Invoke) (cfg : RunnerConfig) :
    (cfg.promptDirExists = false →
      runFull invoke cfg = Except.error (js "Prompts directory not found")) ∧
    (cfg.promptDirExists = true →
      (cfg.promptFiles.filter (fun f => hasYamlExt f.fname)).isEmpty = true →
      runFull invoke cfg = Except.error (js "No YAML files found")) ∧
    (cfg.promptDirExists = true →
      (cfg.promptFiles.filter (fun f => hasYamlExt f.fname)).isEmpty = false →
      cfg.samplesDirExists = false →
      runFull invoke cfg = Except.error (js "Samples directory not found")) := by
  refine ⟨?_, ?_, ?_⟩
  · intro h1
    simp [runFull, loadPrompts, h1]
  · intro h1 h2
    simp [runFull, loadPrompts, h1, h2]
  · intro h1 h2 h3
    simp [runFull, loadPrompts, loadSamples, h1, h2, h3]

/-- Witness for the amended C8 at three concrete configurations. -/
theorem C8_fatal_amended_witness :
    runFull okInvoke cfgNoPromptDir =
      Except.error (js "Prompts directory not found") ∧
    runFull okInvoke cfgNoYaml = Except.error (js "No YAML files found") ∧
    runFull okInvoke cfgNoSamplesDir =
      Except.error (js "Samples directory not found") :=
  ⟨(C8_fatal_amended okInvoke cfgNoPromptDir).1 rfl,
   (C8_fatal_amended okInvoke cfgNoYaml).2.1 rfl (by decide),
   (C8_fatal_amended okInvoke cfgNoSamplesDir).2.2 rfl (by decide) rfl⟩

/-- A prompt whose temperature and token limit are explicitly zero. -/
def pZero : PromptConfig :=
  { name := js "p", template := js "t", model := none,
    temperature := some 0, max_tokens := some 0 }

/-- Counterexample to claim C9 as stated: an explicitly set `0` is falsy in
the source's `||` chains, so temperature 0 and max_tokens 0 are replaced by
the defaults instead of being used as given. -/
theorem C9_counterexample :
    pZero.temperature = some 0 ∧
    (buildRequest (js "x") pZero none).temperature = 1 / 10 ∧
    (buildRequest (js "x") pZero none).temperature ≠ 0 ∧
    pZero.max_tokens = some 0 ∧
    (buildRequest (js "x") pZero none).max_tokens = 500 ∧
    (buildRequest (js "x") pZero none).max_tokens ≠ 0 := by
  refine ⟨rfl, ?_, ?_, rfl, ?_, ?_⟩ <;>
    norm_num [buildRequest, jsOrQ, jsOrZ, pZero]

/-- Claim C9 (amended): the model name follows the precedence override >
prompt model > default, where a value set to the empty string falls through;
temperature defaults to 0.1 and max output length to 500 when the prompt's
value is unset or explicitly 0 (0 is falsy in the source's `||` defaults); a
set non-zero value is used as given; and `model_used` records the same
resolved model name that the invocation request carries. -/
theorem C9_params_amended (t : JStr) (c : PromptConfig) (ov : Option JStr)
    (invoke : Invoke) (tc : TestCase) :
    (buildRequest t c ov).model = resolvedModel ov c ∧
    (executeCase invoke ov c tc).model_used = resolvedModel ov c ∧
    (∀ s, ov = some s → s ≠ [] → resolvedModel ov c = s) ∧
    (∀ s, c.model = some s → s ≠ [] → (ov = none ∨ ov = some []) →
      resolvedModel ov c = s) ∧
    ((ov = none ∨ ov = some []) → (c.model = none ∨ c.model = some []) →
      resolvedModel ov c = defaultModel) ∧
    (c.temperature = none → (buildRequest t c ov).temperature = 1 / 10) ∧
    (c.temperature = some 0 → (buildRequest t c ov).temperature = 1 / 10) ∧
    (∀ x, c.temperature = some x → x ≠ 0 → (buildRequest t c ov).temperature = x) ∧
    (c.max_tokens = none → (buildRequest t c ov).max_tokens = 500) ∧
    (c.max_tokens = some 0 → (buildRequest t c ov).max_tokens = 500) ∧
    (∀ x, c.max_tokens = some x → x ≠ 0 → (buildRequest t c ov).max_tokens = x) := by
  refine ⟨rfl, ?_, ?_, ?_, ?_, ?_, ?_, ?_, ?_, ?_, ?_⟩
  · simp only [executeCase]
    cases invoke (buildRequest (processTemplate c.template tc.input) c ov) <;> rfl
  · intro s hs hne
    simp [resolvedModel, jsOrStr, hs, List.isEmpty_iff, hne]
  · intro s hs hne hov
    rcases hov with h | h <;>
      simp [resolvedModel, jsOrStr, hs, h, List.isEmpty_iff, hne]
  · intro hov hcm
    rcases hov with h | h <;> rcases hcm with h2 | h2 <;>
      simp [resolvedModel, jsOrStr, h, h2]
  · intro h; simp [buildRequest, jsOrQ, h]
  · intro h; simp [buildRequest, jsOrQ, h]
  · intro x hx hne; simp [buildRequest, jsOrQ, hx, hne]
  · intro h; simp [buildRequest, jsOrZ, h]
  · intro h; simp [buildRequest, jsOrZ, h]
  · intro x hx hne; simp [buildRequest, jsOrZ, hx, hne]

/-- Witness for the amended C9 at concrete configurations. -/
theorem C9_params_amended_witness :
    (buildRequest (js "x") p0 (some (js "gpt-4"))).model =
      resolvedModel (some (js "gpt-4")) p0 ∧
    (executeCase okInvoke (some (js "gpt-4")) p0 tc2).model_used =
      resolvedModel (some (js "gpt-4")) p0 ∧
    resolvedModel (some (js "gpt-4")) p0 = js "gpt-4" ∧
    resolvedModel none p0 = defaultModel ∧
    (buildRequest (js "x") p0 none).temperature = 1 / 10 ∧
    (buildRequest (js "x") p0 none).max_tokens = 500 :=
  ⟨(C9_params_amended (js "x") p0 (some (js "gpt-4")) okInvoke tc2).1,
   (C9_params_amended (js "x") p0 (some (js "gpt-4")) okInvoke tc2).2.1,
   (C9_params_amended (js "x") p0 (some (js "gpt-4")) okInvoke tc2).2.2.1
     (js "gpt-4") rfl (by decide),
   (C9_params_amended (js "x") p0 none okInvoke tc2).2.2.2.2.1 (Or.inl rfl)
     (Or.inl rfl),
   (C9_params_amended (js "x") p0 none okInvoke tc2).2.2.2.2.2.1 rfl,
   (C9_params_amended (js "x") p0 none okInvoke tc2).2.2.2.2.2.2.2.2.1 rfl⟩

end PromptAsCode
